import Mathlib

/-!
# MapControl: the viewport controller of QMapControl/mapcontrol.cpp

A shallow embedding of `qmapcontrol::MapControl`.  The widget is a record of the
member variables the navigation code reads and writes; every member function
becomes a pure function from the record to the updated record.

* Signals (`emit ...`) are appended to the `emitted` log of the record.
* `QTimer::singleShot(..., SLOT(tick()))` increments `pendingTicks`, the number of
  tick callbacks that are scheduled and have not run yet; `fireTick` is what the
  event loop does when one of them is due.
* `moveMutex` is the lock bit of the `QMutex` (`true` = locked).
* The coordinate type `G` stands for `QPointF`.  It is kept abstract (an additive
  group, for the null point `QPointF()` and the corner arithmetic of
  `mouseReleaseEvent`), so no floating point enters the model.
* `updateSuspendedCounter` is a 32-bit `int`: its `++` and `--` wrap around in
  two's complement (`wrapInt32`).  The step count of the animation only runs from
  25 downwards and pixel positions stay far from the limits of `int`; they are
  plain integers.
* Repaint requests (`update()`, `forceRedraw()`, `updateRequest()`) and
  `paintEvent` only schedule or perform drawing and are left out.

The collaborators of the file are not part of it: the map adapter (projection)
and the `QPoint` division operator are parameters (`Env`), the layer manager is
modelled from the specification of the view state.
-/

namespace qmapcontrol

/-- The value a 32-bit two's complement `int` holds after an arithmetic result `x`:
`x` itself between -2147483648 and 2147483647, wrapped around modulo 2^32 outside. -/
def wrapInt32 (x : Int) : Int :=
  (x + 2147483648) % 4294967296 - 2147483648

/-- Integer pixel position, the Qt type QPoint. -/
structure QPoint where
  x : Int
  y : Int
deriving DecidableEq, Repr

instance : Add QPoint := ⟨fun a b => ⟨a.x + b.x, a.y + b.y⟩⟩

instance : Sub QPoint := ⟨fun a b => ⟨a.x - b.x, a.y - b.y⟩⟩

/-- Integer size, the Qt type QSize. -/
structure QSize where
  width : Int
  height : Int
deriving DecidableEq, Repr

/-- Modelled from the spec: the enumeration MouseMode is declared in mapcontrol.h,
which is not among the sources; these are the four modes of spec section 3, all of
them named in mapcontrol.cpp. -/
inductive MouseMode where
  | Panning
  | PanningNoZoom
  | Dragging
  | DraggingNoZoom
deriving DecidableEq, Repr

/-- Modelled from the spec: the layer-management collaborator (class LayerManager,
not among the sources) reduced to the View State of spec section 3: the center
coordinate and the zoom level with its bounds, together with what
`layers().size()` and `layer() && layer()->mapadapter()` report. -/
structure LayerManager (G : Type) where
  nLayers : Nat
  hasAdapter : Bool
  mapmiddle : G
  zoom : Int
  minZoomLevel : Int
  maxZoomLevel : Int
deriving DecidableEq, Repr

/-- The capabilities mapcontrol.cpp consumes from outside the file.
`coordinateToDisplay z` and `displayToCoordinate z` are the map adapter's projection
at zoom level `z`; `pointDiv` is `QPoint operator/(QPoint, qreal)` of Qt;
`fitView` and `fitViewAndZoomIn` are the bounding-box fits
`LayerManager::setView(QList<QPointF>)` and `LayerManager::setViewAndZoomIn`. -/
structure Env (G : Type) where
  coordinateToDisplay : Int → G → QPoint
  displayToCoordinate : Int → QPoint → G
  pointDiv : QPoint → Int → QPoint
  fitView : LayerManager G → List G → LayerManager G
  fitViewAndZoomIn : LayerManager G → List G → LayerManager G

namespace LayerManager

variable {G : Type}

/-- The test `layermanager->layer() && layermanager->layer()->mapadapter()`:
there is a first layer and it has a map adapter. -/
def layerConfigured (lm : LayerManager G) : Bool :=
  decide (0 < lm.nLayers) && lm.hasAdapter

/-- Modelled from the spec: `currentCoordinate()` of the layer manager, the center
coordinate of the View State. -/
def currentCoordinate (lm : LayerManager G) : G :=
  lm.mapmiddle

/-- Modelled from the spec: `currentZoom()` of the layer manager. -/
def currentZoom (lm : LayerManager G) : Int :=
  lm.zoom

/-- Modelled from the spec: `minZoom()` of the layer manager. -/
def minZoom (lm : LayerManager G) : Int :=
  lm.minZoomLevel

/-- Modelled from the spec: `maxZoom()` of the layer manager. -/
def maxZoom (lm : LayerManager G) : Int :=
  lm.maxZoomLevel

/-- Modelled from the spec: `getMapmiddle_px()`, the world pixel the center
coordinate resolves to at the current zoom level (section 3, View State). -/
def getMapmiddle_px (E : Env G) (lm : LayerManager G) : QPoint :=
  E.coordinateToDisplay lm.zoom lm.mapmiddle

/-- Modelled from the spec: `scrollView(delta)` shifts the center coordinate by the
world-pixel delta at the current zoom and is a no-op if no layer is configured
(section 4.2, scrollBy). -/
def scrollView (E : Env G) (lm : LayerManager G) (delta : QPoint) : LayerManager G :=
  if lm.layerConfigured then
    { lm with mapmiddle := E.displayToCoordinate lm.zoom (lm.getMapmiddle_px E + delta) }
  else lm

/-- Modelled from the spec: `setView(coordinate)` makes the coordinate the center of
the view; a no-op if no layer is configured (sections 4.2 and 7). -/
def setView (lm : LayerManager G) (coordinate : G) : LayerManager G :=
  if lm.layerConfigured then { lm with mapmiddle := coordinate } else lm

/-- Modelled from the spec: `zoomIn()` moves to the adjacent higher zoom level,
clamped at maxZoom (section 4.2). -/
def zoomIn (lm : LayerManager G) : LayerManager G :=
  if lm.layerConfigured ∧ lm.zoom < lm.maxZoomLevel then { lm with zoom := lm.zoom + 1 } else lm

/-- Modelled from the spec: `zoomOut()` moves to the adjacent lower zoom level,
clamped at minZoom (section 4.2). -/
def zoomOut (lm : LayerManager G) : LayerManager G :=
  if lm.layerConfigured ∧ lm.minZoomLevel < lm.zoom then { lm with zoom := lm.zoom - 1 } else lm

/-- Modelled from the spec: `setZoom(level)` goes to the requested level, clamped to
the interval from minZoom to maxZoom (sections 4.2 and 7 (d)). -/
def setZoom (lm : LayerManager G) (zoomlevel : Int) : LayerManager G :=
  if lm.layerConfigured then
    { lm with zoom := if zoomlevel < lm.minZoomLevel then lm.minZoomLevel
                      else if lm.maxZoomLevel < zoomlevel then lm.maxZoomLevel
                      else zoomlevel }
  else lm

end LayerManager

/-- The signals of MapControl that mapcontrol.cpp emits: `viewChanged(coordinate, zoom)`,
`boxDragged(QRectF(topLeft, size))` and `mouseEventCoordinate(event, coordinate)`
(the event is recorded by its position). -/
inductive Signal (G : Type) where
  | viewChanged (coordinate : G) (zoom : Int)
  | boxDragged (topLeft : G) (size : G)
  | mouseEventCoordinate (pos : QPoint) (coordinate : G)
deriving DecidableEq, Repr

/-- What the mouse handlers read of a QMouseEvent: `button()` (1 left, 2 right,
4 middle), whether `modifiers() & Qt::ShiftModifier` is set, and `pos()`. -/
structure QMouseEvent where
  button : Int
  shift : Bool
  pos : QPoint
deriving DecidableEq, Repr

/-- What wheelEvent reads and writes of a QWheelEvent: `orientation() == Qt::Vertical`,
`delta()`, `pos()`, and the accept flag set by `accept()` and cleared by `ignore()`. -/
structure QWheelEvent where
  vertical : Bool
  delta : Int
  pos : QPoint
  accepted : Bool
deriving DecidableEq, Repr

/-- The member variables of MapControl, the pending tick callbacks of the timer
and the log of emitted signals. -/
structure MapControl (G : Type) where
  layermanager : LayerManager G
  size : QSize
  screen_middle : QPoint
  mymousemode : MouseMode
  scaleVisible : Bool
  crosshairsVisible : Bool
  mousepressed : Bool
  mouse_wheel_events : Bool
  pre_click_px : QPoint
  current_mouse_pos : QPoint
  target : G
  steps : Int
  moveMutex : Bool
  pendingTicks : Nat
  updateSuspendedCounter : Int
  emitted : List (Signal G)
deriving DecidableEq, Repr

namespace MapControl

variable {G : Type} [AddCommGroup G]

/-- The constructor `MapControl(QSize, MouseMode, bool, bool)` followed by `__init()`.
`lm` is the freshly made `new LayerManager(this, size)`; `steps0` is the value the
uninitialised member `steps` happens to hold. -/
def construct (lm : LayerManager G) (size : QSize) (mousemode : MouseMode)
    (showScale showCrosshairs : Bool) (steps0 : Int) : MapControl G :=
  { layermanager := lm
    size := size
    screen_middle := ⟨Int.tdiv size.width 2, Int.tdiv size.height 2⟩
    mymousemode := mousemode
    scaleVisible := showScale
    crosshairsVisible := showCrosshairs
    mousepressed := false
    mouse_wheel_events := true
    pre_click_px := ⟨0, 0⟩
    current_mouse_pos := ⟨0, 0⟩
    target := 0
    steps := steps0
    moveMutex := false
    pendingTicks := 0
    updateSuspendedCounter := 0
    emitted := [] }

/-- An `emit`: the signal is appended to the log. -/
def emit (m : MapControl G) (s : Signal G) : MapControl G :=
  { m with emitted := m.emitted ++ [s] }

/-- The member function `enableMouseWheelEvents`. -/
def enableMouseWheelEvents (m : MapControl G) (enabled : Bool) : MapControl G :=
  { m with mouse_wheel_events := enabled }

/-- The member function `mouseWheelEventsEnabled`. -/
def mouseWheelEventsEnabled (m : MapControl G) : Bool :=
  m.mouse_wheel_events

/-- The member function `currentCoordinate`. -/
def currentCoordinate (m : MapControl G) : G :=
  m.layermanager.currentCoordinate

/-- The member function `currentZoom`. -/
def currentZoom (m : MapControl G) : Int :=
  m.layermanager.currentZoom

/-- The member function `setMouseMode`. -/
def setMouseMode (m : MapControl G) (mousemode : MouseMode) : MapControl G :=
  { m with mymousemode := mousemode }

/-- The member function `moveTo`: target and step count are stored first, then the
mutex is tried; on success a tick is scheduled, on failure the mutex is unlocked. -/
def moveTo (m : MapControl G) (coordinate : G) : MapControl G :=
  let m1 := { m with target := coordinate, steps := 25 }
  if m1.moveMutex = false then
    { m1 with moveMutex := true, pendingTicks := m1.pendingTicks + 1 }
  else
    { m1 with moveMutex := false }

/-- The slot `tick`. -/
def tick (E : Env G) (m : MapControl G) : MapControl G :=
  if m.layermanager.layerConfigured = false then m
  else
    let start := E.coordinateToDisplay m.layermanager.zoom m.currentCoordinate
    let dest := E.coordinateToDisplay m.layermanager.zoom m.target
    let step := E.pointDiv (dest - start) m.steps
    let m1 := { m with layermanager := m.layermanager.scrollView E step }
    let m2 := { m1 with steps := m1.steps - 1 }
    if m2.steps > 0 then { m2 with pendingTicks := m2.pendingTicks + 1 }
    else { m2 with moveMutex := false }

/-- The event loop delivering one due timer callback: a pending tick, if there is
one, is taken off the timer and the slot `tick` runs. -/
def fireTick (E : Env G) (m : MapControl G) : MapControl G :=
  if m.pendingTicks = 0 then m
  else tick E { m with pendingTicks := m.pendingTicks - 1 }

/-- The member function `clickToWorldCoordinate`. -/
def clickToWorldCoordinate (E : Env G) (m : MapControl G) (click : QPoint) : G :=
  if m.layermanager.layerConfigured = false then 0
  else
    let displayToImage : QPoint :=
      ⟨click.x - m.screen_middle.x + (m.layermanager.getMapmiddle_px E).x,
       click.y - m.screen_middle.y + (m.layermanager.getMapmiddle_px E).y⟩
    E.displayToCoordinate m.layermanager.zoom displayToImage

/-- The member function `updateView`. -/
def updateView (m : MapControl G) : MapControl G :=
  let m1 := { m with layermanager := m.layermanager.setView m.currentCoordinate }
  m1.emit (Signal.viewChanged m1.currentCoordinate m1.currentZoom)

/-- The slot `zoomIn`. -/
def zoomIn (m : MapControl G) : MapControl G :=
  let m1 := { m with layermanager := m.layermanager.zoomIn }
  let m2 := m1.updateView
  m2.emit (Signal.viewChanged m2.currentCoordinate m2.currentZoom)

/-- The slot `zoomOut`. -/
def zoomOut (m : MapControl G) : MapControl G :=
  let m1 := { m with layermanager := m.layermanager.zoomOut }
  let m2 := m1.updateView
  m2.emit (Signal.viewChanged m2.currentCoordinate m2.currentZoom)

/-- The slot `setZoom`. -/
def setZoom (m : MapControl G) (zoomlevel : Int) : MapControl G :=
  let m1 := { m with layermanager := m.layermanager.setZoom zoomlevel }
  let m2 := m1.updateView
  m2.emit (Signal.viewChanged m2.currentCoordinate m2.currentZoom)

/-- The slot `scroll`. -/
def scroll (E : Env G) (m : MapControl G) (scroll : QPoint) : MapControl G :=
  updateView { m with layermanager := m.layermanager.scrollView E scroll }

/-- The slot `scrollLeft`. -/
def scrollLeft (E : Env G) (m : MapControl G) (pixel : Int) : MapControl G :=
  updateView { m with layermanager := m.layermanager.scrollView E ⟨-pixel, 0⟩ }

/-- The slot `scrollRight`. -/
def scrollRight (E : Env G) (m : MapControl G) (pixel : Int) : MapControl G :=
  updateView { m with layermanager := m.layermanager.scrollView E ⟨pixel, 0⟩ }

/-- The slot `scrollUp`. -/
def scrollUp (E : Env G) (m : MapControl G) (pixel : Int) : MapControl G :=
  updateView { m with layermanager := m.layermanager.scrollView E ⟨0, -pixel⟩ }

/-- The slot `scrollDown`. -/
def scrollDown (E : Env G) (m : MapControl G) (pixel : Int) : MapControl G :=
  updateView { m with layermanager := m.layermanager.scrollView E ⟨0, pixel⟩ }

/-- The member function `setView(const QPointF&)`. -/
def setView (m : MapControl G) (coordinate : G) : MapControl G :=
  let m1 := { m with layermanager := m.layermanager.setView coordinate }
  m1.emit (Signal.viewChanged m1.currentCoordinate m1.currentZoom)

/-- The member function `setView(const QList<QPointF>)`. -/
def setViewList (E : Env G) (m : MapControl G) (coordinates : List G) : MapControl G :=
  let m1 := { m with layermanager := E.fitView m.layermanager coordinates }
  m1.emit (Signal.viewChanged m1.currentCoordinate m1.currentZoom)

/-- The member function `setViewAndZoomIn`. -/
def setViewAndZoomIn (E : Env G) (m : MapControl G) (coordinates : List G) : MapControl G :=
  let m1 := { m with layermanager := E.fitViewAndZoomIn m.layermanager coordinates }
  m1.emit (Signal.viewChanged m1.currentCoordinate m1.currentZoom)

/-- The member function `setView(const Point*)`; `coordinate` is `point->coordinate()`. -/
def setViewPoint (m : MapControl G) (coordinate : G) : MapControl G :=
  { m with layermanager := m.layermanager.setView coordinate }

/-- The member function `suspendUpdate`. -/
def suspendUpdate (m : MapControl G) (suspend : Bool) : MapControl G :=
  if suspend then
    { m with updateSuspendedCounter := wrapInt32 (m.updateSuspendedCounter + 1) }
  else
    let m1 := { m with updateSuspendedCounter := wrapInt32 (m.updateSuspendedCounter - 1) }
    if m1.updateSuspendedCounter < 0 then { m1 with updateSuspendedCounter := 0 } else m1

/-- The member function `isUpdateSuspended`. -/
def isUpdateSuspended (m : MapControl G) : Bool :=
  if m.updateSuspendedCounter > 0 then true else false

/-- The handler `mousePressEvent`.  `layermanager->mouseEvent(evnt)` hands the click
to the layers for hit-testing and leaves the widget as it is. -/
def mousePressEvent (E : Env G) (m : MapControl G) (evnt : QMouseEvent) : MapControl G :=
  let m1 := if evnt.button = 1 then { m with mousepressed := true } else m
  let m2 :=
    if evnt.shift = false then
      if m1.layermanager.nLayers > 0 then
        if evnt.button = 1 then
          { m1 with mousepressed := true, pre_click_px := ⟨evnt.pos.x, evnt.pos.y⟩ }
        else if evnt.button = 2 ∧ m1.mouseWheelEventsEnabled = true ∧
            (m1.mymousemode = MouseMode.Panning ∨ m1.mymousemode = MouseMode.Dragging) then
          m1.zoomIn
        else if evnt.button = 4 ∧ m1.mouseWheelEventsEnabled = true ∧
            (m1.mymousemode = MouseMode.Panning ∨ m1.mymousemode = MouseMode.Dragging) then
          m1.zoomOut
        else m1
      else m1
    else m1
  m2.emit (Signal.mouseEventCoordinate evnt.pos (clickToWorldCoordinate E m2 evnt.pos))

/-- The handler `mouseReleaseEvent`. -/
def mouseReleaseEvent (E : Env G) (m : MapControl G) (evnt : QMouseEvent) : MapControl G :=
  let m1 := { m with mousepressed := false }
  let m2 :=
    if m1.mymousemode = MouseMode.Dragging ∨ m1.mymousemode = MouseMode.DraggingNoZoom then
      let ulCoord := clickToWorldCoordinate E m1 m1.pre_click_px
      let lrCoord := clickToWorldCoordinate E m1 m1.current_mouse_pos
      m1.emit (Signal.boxDragged ulCoord (lrCoord - ulCoord))
    else m1
  m2.emit (Signal.mouseEventCoordinate evnt.pos (clickToWorldCoordinate E m2 evnt.pos))

/-- The handler `mouseMoveEvent`.  In the last branch `layermanager->mouseMoveEvent(evnt)`
hands the move to the layers for hover hit-testing and leaves the widget as it is. -/
def mouseMoveEvent (E : Env G) (m : MapControl G) (evnt : QMouseEvent) : MapControl G :=
  if m.mousepressed = true ∧
      (m.mymousemode = MouseMode.Panning ∨ m.mymousemode = MouseMode.PanningNoZoom) then
    let offset := m.pre_click_px - ⟨evnt.pos.x, evnt.pos.y⟩
    let m1 := { m with layermanager := m.layermanager.scrollView E offset }
    { m1 with pre_click_px := ⟨evnt.pos.x, evnt.pos.y⟩ }
  else if m.mousepressed = true ∧
      (m.mymousemode = MouseMode.Dragging ∨ m.mymousemode = MouseMode.DraggingNoZoom) then
    { m with current_mouse_pos := ⟨evnt.pos.x, evnt.pos.y⟩ }
  else m

/-- The handler `wheelEvent`; the event comes back with its accept flag as the
handler leaves it. -/
def wheelEvent (E : Env G) (m : MapControl G) (evnt : QWheelEvent) :
    MapControl G × QWheelEvent :=
  if m.mouse_wheel_events = true ∧ evnt.vertical = true then
    if evnt.delta > 0 then
      if m.currentZoom = m.layermanager.maxZoom then (m, evnt)
      else
        let m1 := m.suspendUpdate true
        let m2 := m1.setView (clickToWorldCoordinate E m1 evnt.pos)
        let m3 := m2.zoomIn
        let m4 := m3.suspendUpdate false
        (m4, { evnt with accepted := true })
    else
      if m.currentZoom = m.layermanager.minZoom then (m, evnt)
      else
        let m1 := m.suspendUpdate true
        let m2 := m1.zoomOut
        let m3 := m2.suspendUpdate false
        (m3, { evnt with accepted := true })
  else (m, { evnt with accepted := false })

/-- A run of `suspendUpdate` calls, one per entry of the list, in order. -/
def suspendCalls (m : MapControl G) (calls : List Bool) : MapControl G :=
  calls.foldl suspendUpdate m

/-- The number of `viewChanged` signals in a log. -/
def viewChangedCount (log : List (Signal G)) : Nat :=
  (log.filter fun s => match s with
    | Signal.viewChanged _ _ => true
    | _ => false).length

/-- The `boxDragged` signals of a log, each as its pair (top-left corner, size). -/
def boxesDragged (log : List (Signal G)) : List (G × G) :=
  log.filterMap fun s => match s with
    | Signal.boxDragged topLeft size => some (topLeft, size)
    | _ => none

/-- A run of `mouseMoveEvent` calls, one per event of the list, in order. -/
def mouseMoves (E : Env G) (m : MapControl G) (moves : List QMouseEvent) : MapControl G :=
  moves.foldl (mouseMoveEvent E) m

/-- A press, the moves of the list, and a release, delivered in this order. -/
def dragCycle (E : Env G) (m : MapControl G) (press : QMouseEvent) (moves : List QMouseEvent)
    (release : QMouseEvent) : MapControl G :=
  mouseReleaseEvent E (mouseMoves E (mousePressEvent E m press) moves) release

end MapControl

/-! ## A concrete widget for test runs -/

/-- A linear projection for test runs: a coordinate is a pixel position of zoom
level 17 and every lower level halves the resolution.  `pointDiv` rounds to the
nearest integer, `fitView` and `fitViewAndZoomIn` keep the view. -/
def sampleEnv : Env (Int × Int) where
  coordinateToDisplay z g := ⟨g.1 / 2 ^ (17 - z).toNat, g.2 / 2 ^ (17 - z).toNat⟩
  displayToCoordinate z p := (p.x * 2 ^ (17 - z).toNat, p.y * 2 ^ (17 - z).toNat)
  pointDiv p c := ⟨(2 * p.x + c) / (2 * c), (2 * p.y + c) / (2 * c)⟩
  fitView lm _ := lm
  fitViewAndZoomIn lm _ := lm

/-- A layer manager with one layer and its adapter, centered on (0, 0) at zoom
level 10 of the levels 0 to 17. -/
def sampleLayers : LayerManager (Int × Int) :=
  { nLayers := 1, hasAdapter := true, mapmiddle := (0, 0), zoom := 10,
    minZoomLevel := 0, maxZoomLevel := 17 }

/-- A freshly constructed 100 by 100 widget around `sampleLayers` in the given
mouse mode. -/
def sampleControl (mode : MouseMode) : MapControl (Int × Int) :=
  MapControl.construct sampleLayers ⟨100, 100⟩ mode false true 0

/-- The widget one tick after `moveTo (1280000, -640000)` on a fresh widget: a pan
animation is running, 24 steps remain. -/
def runningControl : MapControl (Int × Int) :=
  MapControl.fireTick sampleEnv ((sampleControl MouseMode.Panning).moveTo (1280000, -640000))

/-- The sample widget in the given mouse mode, zoomed to the given level. -/
def sampleControlAt (mode : MouseMode) (zoom : Int) : MapControl (Int × Int) :=
  { sampleControl mode with layermanager := { sampleLayers with zoom := zoom } }

/-- A wheel event turned away from the user (delta 120) on the vertical axis at
pixel (90, 50), with the accept flag set as the QEvent constructor sets it. -/
def wheelUp : QWheelEvent :=
  { vertical := true, delta := 120, pos := ⟨90, 50⟩, accepted := true }

/-- A wheel event turned towards the user (delta -120) on the vertical axis at
pixel (90, 50), with the accept flag set as the QEvent constructor sets it. -/
def wheelDown : QWheelEvent :=
  { vertical := true, delta := -120, pos := ⟨90, 50⟩, accepted := true }

/-! ## The update suspension counter -/

section Suspension

open MapControl

variable {G : Type}

theorem wrapInt32_of_range (x : Int) (hlo : -2147483648 ≤ x) (hhi : x ≤ 2147483647) :
    wrapInt32 x = x := by
  unfold wrapInt32
  omega

theorem counter_suspendUpdate_true (m : MapControl G) :
    (m.suspendUpdate true).updateSuspendedCounter = wrapInt32 (m.updateSuspendedCounter + 1) := by
  simp [suspendUpdate]

theorem counter_suspendUpdate_false (m : MapControl G) :
    (m.suspendUpdate false).updateSuspendedCounter
      = max (wrapInt32 (m.updateSuspendedCounter - 1)) 0 := by
  simp only [suspendUpdate, Bool.false_eq_true, if_false]
  split_ifs with h
  · exact (max_eq_right (le_of_lt h)).symm
  · exact (max_eq_left (not_lt.mp h)).symm

theorem suspendCalls_append (m : MapControl G) (xs ys : List Bool) :
    m.suspendCalls (xs ++ ys) = (m.suspendCalls xs).suspendCalls ys := by
  simp [suspendCalls, List.foldl_append]

theorem suspendCalls_cons (m : MapControl G) (b : Bool) (bs : List Bool) :
    m.suspendCalls (b :: bs) = (m.suspendUpdate b).suspendCalls bs := rfl

/-- Acquisitions that stay below the limit of `int` add up. -/
theorem counter_suspendCalls_true (n : Nat) (m : MapControl G)
    (h0 : 0 ≤ m.updateSuspendedCounter)
    (hmax : m.updateSuspendedCounter + n ≤ 2147483647) :
    (m.suspendCalls (List.replicate n true)).updateSuspendedCounter
      = m.updateSuspendedCounter + n := by
  induction n generalizing m with
  | zero => simp [suspendCalls]
  | succ n ih =>
    have hc : (m.suspendUpdate true).updateSuspendedCounter = m.updateSuspendedCounter + 1 := by
      rw [counter_suspendUpdate_true, wrapInt32_of_range _ (by omega) (by push_cast at hmax; omega)]
    rw [List.replicate_succ, suspendCalls_cons,
      ih (m.suspendUpdate true) (by omega) (by push_cast at hmax; omega), hc]
    push_cast
    ring

/-- Releases from a non-negative counter count down to 0 and stay there. -/
theorem counter_suspendCalls_false (k : Nat) (m : MapControl G)
    (h0 : 0 ≤ m.updateSuspendedCounter) (hmax : m.updateSuspendedCounter ≤ 2147483647) :
    (m.suspendCalls (List.replicate k false)).updateSuspendedCounter
      = max (m.updateSuspendedCounter - k) 0 := by
  induction k generalizing m with
  | zero => simp [suspendCalls, h0]
  | succ k ih =>
    have hc : (m.suspendUpdate false).updateSuspendedCounter
        = max (m.updateSuspendedCounter - 1) 0 := by
      rw [counter_suspendUpdate_false, wrapInt32_of_range _ (by omega) (by omega)]
    have hle : max (m.updateSuspendedCounter - 1) 0 ≤ 2147483647 := max_le (by omega) (by omega)
    rw [List.replicate_succ, suspendCalls_cons,
      ih (m.suspendUpdate false) (by rw [hc]; exact le_max_right _ _) (by rw [hc]; exact hle), hc]
    push_cast
    rcases le_total (m.updateSuspendedCounter - 1) 0 with h1 | h1
    · rw [max_eq_right h1, max_eq_right (by omega), max_eq_right (by omega)]
    · rw [max_eq_left h1]
      congr 1
      ring

theorem isUpdateSuspended_iff (m : MapControl G) :
    m.isUpdateSuspended = true ↔ 0 < m.updateSuspendedCounter := by
  simp [isUpdateSuspended]

/-- From a fresh widget N acquisitions, N at most 2147483647, followed by k releases
leave the counter at N - k, or at 0 when k exceeds N. -/
theorem counter_acquire_release [AddCommGroup G] (lm : LayerManager G) (size : QSize)
    (mousemode : MouseMode) (showScale showCrosshairs : Bool) (steps0 : Int) (N k : Nat)
    (hmax : N ≤ 2147483647) :
    ((construct lm size mousemode showScale showCrosshairs steps0).suspendCalls
        (List.replicate N true ++ List.replicate k false)).updateSuspendedCounter
      = max ((N : Int) - k) 0 := by
  have hN : ((construct lm size mousemode showScale showCrosshairs steps0).suspendCalls
      (List.replicate N true)).updateSuspendedCounter = N := by
    rw [counter_suspendCalls_true N _ (by simp [construct]) (by simp [construct]; omega)]
    simp [construct]
  rw [suspendCalls_append, counter_suspendCalls_false k _ (by rw [hN]; omega)
    (by rw [hN]; omega), hN]

/-- The one acquisition that takes a counter of 2147483647 over the limit of `int`
leaves it at -2147483648. -/
theorem counter_acquire_overflow [AddCommGroup G] (lm : LayerManager G) (size : QSize)
    (mousemode : MouseMode) (showScale showCrosshairs : Bool) (steps0 : Int) (N : Nat)
    (hN : N = 2147483648) :
    ((construct lm size mousemode showScale showCrosshairs steps0).suspendCalls
        (List.replicate N true)).updateSuspendedCounter = -2147483648 := by
  obtain ⟨n, rfl⟩ : ∃ n, N = n + 1 := ⟨N - 1, by omega⟩
  have hn : ((construct lm size mousemode showScale showCrosshairs steps0).suspendCalls
      (List.replicate n true)).updateSuspendedCounter = n := by
    rw [counter_suspendCalls_true n _ (by simp [construct]) (by simp [construct]; omega)]
    simp [construct]
  have hlast : ∀ x : MapControl G, x.suspendCalls [true] = x.suspendUpdate true := fun _ => rfl
  rw [List.replicate_succ', suspendCalls_append, hlast, counter_suspendUpdate_true, hn]
  have hv : (n : Int) = 2147483647 := by omega
  rw [hv]
  decide

/-- C7 (as stated, refuted): on the fresh sample widget N = 2147483648 calls
suspendUpdate(true) followed by k = 0 calls suspendUpdate(false), a k between 0 and
N - 1, leave isUpdateSuspended() false: the last increment takes the 32-bit counter
from 2147483647 to -2147483648. -/
theorem suspend_nested_overflow :
    (1 : Nat) ≤ 2147483648 ∧ (0 : Nat) ≤ 2147483648 - 1 ∧
    ((sampleControl MouseMode.Panning).suspendCalls
      (List.replicate 2147483648 true ++ List.replicate 0 false)).isUpdateSuspended = false := by
  refine ⟨by decide, by decide, ?_⟩
  rw [List.replicate_zero, List.append_nil, ← Bool.not_eq_true, isUpdateSuspended_iff]
  have h := counter_acquire_overflow sampleLayers ⟨100, 100⟩ MouseMode.Panning false true 0
    2147483648 rfl
  unfold sampleControl
  rw [h]
  decide

/-- C7 (amended): on a freshly constructed control, N calls suspendUpdate(true) with
1 <= N <= 2147483647 followed by k calls suspendUpdate(false) leave
isUpdateSuspended() true for every k from 0 to N-1, and false for k = N. -/
theorem suspend_nested_releases [AddCommGroup G] (lm : LayerManager G) (size : QSize)
    (mousemode : MouseMode) (showScale showCrosshairs : Bool) (steps0 : Int) (N : Nat)
    (hN : 1 ≤ N) (hmax : N ≤ 2147483647) :
    (∀ k, k ≤ N - 1 →
      ((construct lm size mousemode showScale showCrosshairs steps0).suspendCalls
        (List.replicate N true ++ List.replicate k false)).isUpdateSuspended = true) ∧
    ((construct lm size mousemode showScale showCrosshairs steps0).suspendCalls
        (List.replicate N true ++ List.replicate N false)).isUpdateSuspended = false := by
  have hc := counter_acquire_release lm size mousemode showScale showCrosshairs steps0 N
  constructor
  · intro k hk
    rw [isUpdateSuspended_iff, hc k hmax]
    apply lt_max_of_lt_left
    omega
  · rw [← Bool.not_eq_true, isUpdateSuspended_iff, hc N hmax]
    simp

/-- Witness of the amended C7 at nesting depth 3. -/
theorem suspend_nested_releases_witness :
    (1 ≤ 3 ∧ 3 ≤ 2147483647) ∧
    ((∀ k, k ≤ 3 - 1 →
      ((sampleControl MouseMode.Panning).suspendCalls
        (List.replicate 3 true ++ List.replicate k false)).isUpdateSuspended = true) ∧
    ((sampleControl MouseMode.Panning).suspendCalls
        (List.replicate 3 true ++ List.replicate 3 false)).isUpdateSuspended = false) :=
  ⟨by decide,
    suspend_nested_releases sampleLayers ⟨100, 100⟩ MouseMode.Panning false true 0 3
      (by decide) (by decide)⟩

end Suspension

/-! ## The pan animation: moveTo and tick -/

section Animation

open MapControl

variable {G : Type}

/-- C1 (as stated, refuted): in `runningControl` a pan animation to
(1280000, -640000) is in flight with the move mutex held and 24 steps left; a
second moveTo with target (7, 7) replaces the stored target and resets the
remaining step count to 25. -/
theorem moveTo_while_running_alters_run :
    runningControl.moveMutex = true ∧ runningControl.target = (1280000, -640000) ∧
    runningControl.steps = 24 ∧
    (runningControl.moveTo (7, 7)).target ≠ runningControl.target ∧
    (runningControl.moveTo (7, 7)).steps ≠ runningControl.steps := by
  decide

/-- C1 (amended): a moveTo(t2) issued while the move mutex is held schedules no tick
and leaves the view where it is, but it retargets the run in flight: the stored
target becomes t2 and the remaining step count becomes 25. -/
theorem moveTo_while_running_retargets (m : MapControl G) (t2 : G)
    (hheld : m.moveMutex = true) :
    (m.moveTo t2).target = t2 ∧ (m.moveTo t2).steps = 25 ∧
    (m.moveTo t2).pendingTicks = m.pendingTicks ∧
    (m.moveTo t2).layermanager = m.layermanager := by
  simp [moveTo, hheld]

/-- Witness of the amended C1 at `runningControl`. -/
theorem moveTo_while_running_retargets_witness :
    runningControl.moveMutex = true ∧
    ((runningControl.moveTo (7, 7)).target = (7, 7) ∧ (runningControl.moveTo (7, 7)).steps = 25 ∧
    (runningControl.moveTo (7, 7)).pendingTicks = runningControl.pendingTicks ∧
    (runningControl.moveTo (7, 7)).layermanager = runningControl.layermanager) :=
  ⟨by decide, moveTo_while_running_retargets runningControl (7, 7) (by decide)⟩

/-- C2 (the code at the failing input): from a fresh, idle widget three moveTo calls
in a row, with no tick fired in between, leave two tick callbacks pending: the
second call unlocks the mutex the first one took, so the third one schedules a
second tick chain next to the first. -/
theorem moveTo_thrice_schedules_two_ticks :
    (sampleControl MouseMode.Panning).moveMutex = false ∧
    (sampleControl MouseMode.Panning).pendingTicks = 0 ∧
    ((sampleControl MouseMode.Panning).moveTo (5, 5)).pendingTicks = 1 ∧
    (((sampleControl MouseMode.Panning).moveTo (5, 5)).moveTo (6, 6)).pendingTicks = 1 ∧
    (((sampleControl MouseMode.Panning).moveTo (5, 5)).moveTo (6, 6)).moveMutex = false ∧
    ((((sampleControl MouseMode.Panning).moveTo (5, 5)).moveTo (6, 6)).moveTo (7, 7)).pendingTicks
      = 2 := by
  decide

end Animation

/-! ## The viewChanged notification -/

section Notification

open MapControl

variable {G : Type}

theorem viewChangedCount_emit_viewChanged (m : MapControl G) (c : G) (z : Int) :
    viewChangedCount (m.emit (Signal.viewChanged c z)).emitted
      = viewChangedCount m.emitted + 1 := by
  simp [viewChangedCount, emit, List.filter_append]

theorem viewChangedCount_updateView (m : MapControl G) :
    viewChangedCount m.updateView.emitted = viewChangedCount m.emitted + 1 := by
  simp [updateView, viewChangedCount_emit_viewChanged]

/-- C5 (as stated, refuted): one call of zoomIn on the fresh sample widget emits
viewChanged twice, not once. -/
theorem zoomIn_emits_viewChanged_twice :
    viewChangedCount (sampleControl MouseMode.Panning).emitted = 0 ∧
    viewChangedCount (sampleControl MouseMode.Panning).zoomIn.emitted = 2 := by
  decide

/-- C5 (amended): in every state one call of scroll, scrollLeft, scrollRight,
scrollUp, scrollDown, setView(coordinate), setView(coordinates) or
setViewAndZoomIn emits viewChanged exactly once, and one call of zoomIn, zoomOut
or setZoom emits it exactly twice (once in updateView, once in the slot). -/
theorem navigation_viewChanged_counts (E : Env G) (m : MapControl G) (delta : QPoint)
    (pixel zoomlevel : Int) (coordinate : G) (coordinates : List G) :
    viewChangedCount (scroll E m delta).emitted = viewChangedCount m.emitted + 1 ∧
    viewChangedCount (scrollLeft E m pixel).emitted = viewChangedCount m.emitted + 1 ∧
    viewChangedCount (scrollRight E m pixel).emitted = viewChangedCount m.emitted + 1 ∧
    viewChangedCount (scrollUp E m pixel).emitted = viewChangedCount m.emitted + 1 ∧
    viewChangedCount (scrollDown E m pixel).emitted = viewChangedCount m.emitted + 1 ∧
    viewChangedCount (m.setView coordinate).emitted = viewChangedCount m.emitted + 1 ∧
    viewChangedCount (setViewList E m coordinates).emitted = viewChangedCount m.emitted + 1 ∧
    viewChangedCount (setViewAndZoomIn E m coordinates).emitted
      = viewChangedCount m.emitted + 1 ∧
    viewChangedCount m.zoomIn.emitted = viewChangedCount m.emitted + 2 ∧
    viewChangedCount m.zoomOut.emitted = viewChangedCount m.emitted + 2 ∧
    viewChangedCount (m.setZoom zoomlevel).emitted = viewChangedCount m.emitted + 2 := by
  refine ⟨?_, ?_, ?_, ?_, ?_, ?_, ?_, ?_, ?_, ?_, ?_⟩
  · simp [scroll, viewChangedCount_updateView]
  · simp [scrollLeft, viewChangedCount_updateView]
  · simp [scrollRight, viewChangedCount_updateView]
  · simp [scrollUp, viewChangedCount_updateView]
  · simp [scrollDown, viewChangedCount_updateView]
  · simp [MapControl.setView, viewChangedCount_emit_viewChanged]
  · simp [setViewList, viewChangedCount_emit_viewChanged]
  · simp [setViewAndZoomIn, viewChangedCount_emit_viewChanged]
  · simp [MapControl.zoomIn, viewChangedCount_emit_viewChanged, viewChangedCount_updateView]
  · simp [MapControl.zoomOut, viewChangedCount_emit_viewChanged, viewChangedCount_updateView]
  · simp [MapControl.setZoom, viewChangedCount_emit_viewChanged, viewChangedCount_updateView]

end Notification

/-! ## The mouse wheel -/

section Wheel

open MapControl

variable {G : Type}

theorem LayerManager.setView_of_configured (lm : LayerManager G) (c : G)
    (hl : lm.layerConfigured = true) : lm.setView c = { lm with mapmiddle := c } := by
  simp [LayerManager.setView, hl]

theorem LayerManager.setView_currentCoordinate (lm : LayerManager G) :
    lm.setView lm.currentCoordinate = lm := by
  unfold LayerManager.setView LayerManager.currentCoordinate
  split_ifs <;> rfl

theorem LayerManager.zoomIn_of_below_max (lm : LayerManager G)
    (hl : lm.layerConfigured = true) (hz : lm.zoom < lm.maxZoomLevel) :
    lm.zoomIn = { lm with zoom := lm.zoom + 1 } := by
  simp [LayerManager.zoomIn, hl, hz]

theorem suspendUpdate_layermanager (m : MapControl G) (b : Bool) :
    (m.suspendUpdate b).layermanager = m.layermanager := by
  simp only [suspendUpdate]
  split_ifs <;> rfl

theorem suspendUpdate_screen_middle (m : MapControl G) (b : Bool) :
    (m.suspendUpdate b).screen_middle = m.screen_middle := by
  simp only [suspendUpdate]
  split_ifs <;> rfl

theorem setView_layermanager (m : MapControl G) (c : G) :
    (m.setView c).layermanager = m.layermanager.setView c := rfl

theorem setView_screen_middle (m : MapControl G) (c : G) :
    (m.setView c).screen_middle = m.screen_middle := rfl

theorem zoomIn_layermanager (m : MapControl G) :
    m.zoomIn.layermanager = m.layermanager.zoomIn := by
  show m.layermanager.zoomIn.setView m.layermanager.zoomIn.currentCoordinate
    = m.layermanager.zoomIn
  exact LayerManager.setView_currentCoordinate _

theorem zoomIn_screen_middle (m : MapControl G) :
    m.zoomIn.screen_middle = m.screen_middle := rfl

theorem clickToWorldCoordinate_congr [AddCommGroup G] (E : Env G) (m n : MapControl G)
    (hlm : m.layermanager = n.layermanager) (hmid : m.screen_middle = n.screen_middle)
    (click : QPoint) :
    clickToWorldCoordinate E m click = clickToWorldCoordinate E n click := by
  simp [clickToWorldCoordinate, hlm, hmid]

/-- The widget a wheel-zoom-in leaves behind, when the handler gets to zoom. -/
theorem wheelEvent_zoom_in [AddCommGroup G] (E : Env G) (m : MapControl G)
    (evnt : QWheelEvent) (hw : m.mouse_wheel_events = true) (hv : evnt.vertical = true)
    (hd : 0 < evnt.delta) (hne : m.currentZoom ≠ m.layermanager.maxZoom) :
    wheelEvent E m evnt =
      ((((m.suspendUpdate true).setView (clickToWorldCoordinate E m evnt.pos)).zoomIn).suspendUpdate
        false, { evnt with accepted := true }) := by
  have hclick : clickToWorldCoordinate E (m.suspendUpdate true) evnt.pos
      = clickToWorldCoordinate E m evnt.pos :=
    clickToWorldCoordinate_congr E _ _ (suspendUpdate_layermanager m true)
      (suspendUpdate_screen_middle m true) _
  simp [wheelEvent, hw, hv, hd, hne, hclick]

/-- C4 (as stated, refuted): on the sample widget (zoom level 10 of 17, layer
configured, wheel events enabled) the coordinate under the pixel (90, 50) is
(5120, 0) before a wheel-zoom-in at that pixel and (7680, 0) after it; at the new
zoom level 11 these two coordinates lie 40 pixels apart, which is the distance of
(90, 50) from the middle of the screen. -/
theorem wheel_zoom_in_moves_anchor :
    (sampleControl MouseMode.Panning).mouse_wheel_events = true ∧
    (sampleControl MouseMode.Panning).layermanager.layerConfigured = true ∧
    (sampleControl MouseMode.Panning).currentZoom = 10 ∧
    (sampleControl MouseMode.Panning).layermanager.maxZoom = 17 ∧
    (wheelEvent sampleEnv (sampleControl MouseMode.Panning) wheelUp).1.currentZoom = 11 ∧
    clickToWorldCoordinate sampleEnv (sampleControl MouseMode.Panning) ⟨90, 50⟩ = (5120, 0) ∧
    clickToWorldCoordinate sampleEnv
      (wheelEvent sampleEnv (sampleControl MouseMode.Panning) wheelUp).1 ⟨90, 50⟩ = (7680, 0) ∧
    sampleEnv.coordinateToDisplay 11 (5120, 0) = ⟨80, 0⟩ ∧
    sampleEnv.coordinateToDisplay 11 (7680, 0) = ⟨120, 0⟩ := by
  decide

/-- C4 (amended): with wheel events enabled, a layer configured and the zoom level
below maxZoom, a vertical wheel event with positive delta at the pixel P makes the
coordinate that was under P the center of the view and raises the zoom level by
one: afterwards currentCoordinate() is clickToWorldCoordinate(P) as evaluated
before the call, and the pixel in the middle of the screen, not P, shows that
coordinate (converted to its pixel at the new zoom level and back). -/
theorem wheel_zoom_in_centers_anchor [AddCommGroup G] (E : Env G) (m : MapControl G)
    (evnt : QWheelEvent)
    (hw : m.mouse_wheel_events = true) (hv : evnt.vertical = true) (hd : 0 < evnt.delta)
    (hl : m.layermanager.layerConfigured = true)
    (hz : m.currentZoom < m.layermanager.maxZoom) :
    (wheelEvent E m evnt).1.currentCoordinate = clickToWorldCoordinate E m evnt.pos ∧
    (wheelEvent E m evnt).1.currentZoom = m.currentZoom + 1 ∧
    clickToWorldCoordinate E (wheelEvent E m evnt).1 (wheelEvent E m evnt).1.screen_middle
      = E.displayToCoordinate (m.currentZoom + 1)
          (E.coordinateToDisplay (m.currentZoom + 1) (clickToWorldCoordinate E m evnt.pos)) := by
  have hz2 : m.layermanager.zoom < m.layermanager.maxZoomLevel := hz
  have hlm : (wheelEvent E m evnt).1.layermanager =
      { m.layermanager with
        mapmiddle := clickToWorldCoordinate E m evnt.pos
        zoom := m.layermanager.zoom + 1 } := by
    rw [wheelEvent_zoom_in E m evnt hw hv hd (ne_of_lt hz)]
    simp only [suspendUpdate_layermanager, zoomIn_layermanager, setView_layermanager]
    rw [LayerManager.setView_of_configured _ _ hl]
    exact LayerManager.zoomIn_of_below_max _ hl hz2
  refine ⟨?_, ?_, ?_⟩
  · simp only [MapControl.currentCoordinate, LayerManager.currentCoordinate, hlm]
  · simp only [MapControl.currentZoom, LayerManager.currentZoom, hlm]
  · generalize clickToWorldCoordinate E m evnt.pos = c at hlm ⊢
    have hcfg : (wheelEvent E m evnt).1.layermanager.layerConfigured = true := by
      rw [hlm]; exact hl
    unfold clickToWorldCoordinate
    rw [if_neg (by simp [hcfg])]
    simp only [LayerManager.getMapmiddle_px, hlm, sub_self, zero_add, MapControl.currentZoom,
      LayerManager.currentZoom]

/-- Witness of the amended C4: the sample widget and the event `wheelUp`. -/
theorem wheel_zoom_in_centers_anchor_witness :
    ((sampleControl MouseMode.Panning).mouse_wheel_events = true ∧ wheelUp.vertical = true ∧
      0 < wheelUp.delta ∧ (sampleControl MouseMode.Panning).layermanager.layerConfigured = true ∧
      (sampleControl MouseMode.Panning).currentZoom
        < (sampleControl MouseMode.Panning).layermanager.maxZoom) ∧
    (wheelEvent sampleEnv (sampleControl MouseMode.Panning) wheelUp).1.currentCoordinate
      = clickToWorldCoordinate sampleEnv (sampleControl MouseMode.Panning) wheelUp.pos :=
  ⟨by decide,
    (wheel_zoom_in_centers_anchor sampleEnv (sampleControl MouseMode.Panning) wheelUp
      (by decide) (by decide) (by decide) (by decide) (by decide)).1⟩

/-- C9 (as stated, refuted): in the modes PanningNoZoom and DraggingNoZoom a vertical
wheel event with positive delta on the sample widget raises the zoom level from 10
to 11 and moves the center from (0, 0) to (5120, 0), and one with negative delta
lowers the zoom level to 9; the right mouse button, whose zoom mousePressEvent
allows only in Panning and Dragging, leaves level 10. -/
theorem wheelEvent_zooms_in_NoZoom_modes :
    (sampleControl MouseMode.PanningNoZoom).currentZoom = 10 ∧
    (sampleControl MouseMode.PanningNoZoom).currentCoordinate = (0, 0) ∧
    (wheelEvent sampleEnv (sampleControl MouseMode.PanningNoZoom) wheelUp).1.currentZoom = 11 ∧
    (wheelEvent sampleEnv (sampleControl MouseMode.PanningNoZoom) wheelUp).1.currentCoordinate
      = (5120, 0) ∧
    (wheelEvent sampleEnv (sampleControl MouseMode.DraggingNoZoom) wheelUp).1.currentZoom = 11 ∧
    (wheelEvent sampleEnv (sampleControl MouseMode.DraggingNoZoom) wheelUp).1.currentCoordinate
      = (5120, 0) ∧
    (wheelEvent sampleEnv (sampleControl MouseMode.PanningNoZoom) wheelDown).1.currentZoom = 9 ∧
    (wheelEvent sampleEnv (sampleControl MouseMode.DraggingNoZoom) wheelDown).1.currentZoom = 9 ∧
    (mousePressEvent sampleEnv (sampleControl MouseMode.PanningNoZoom)
      ⟨2, false, ⟨90, 50⟩⟩).currentZoom = 10 ∧
    (mousePressEvent sampleEnv (sampleControl MouseMode.Panning)
      ⟨2, false, ⟨90, 50⟩⟩).currentZoom = 11 := by
  decide

theorem suspendUpdate_setMouseMode (m : MapControl G) (b : Bool) (mode : MouseMode) :
    (m.setMouseMode mode).suspendUpdate b = (m.suspendUpdate b).setMouseMode mode := by
  simp only [suspendUpdate, setMouseMode]
  split_ifs <;> rfl

/-- C9 (amended): wheelEvent does not depend on the mouse mode: for every wheel event
and every state it acts in PanningNoZoom and DraggingNoZoom as in Panning and
Dragging, with the same view, signals and accept flag.  It leaves zoom level and
center as they were, and marks the event ignored, when wheel events are disabled.
The mouse mode restricts only the button zoom of mousePressEvent: in PanningNoZoom
and DraggingNoZoom a press of the secondary or tertiary button keeps the zoom
level. -/
theorem wheelEvent_ignores_mouse_mode [AddCommGroup G] (E : Env G) (m : MapControl G)
    (evnt : QWheelEvent) (mode : MouseMode) (shift : Bool) (pos : QPoint) :
    wheelEvent E (m.setMouseMode mode) evnt
      = ((wheelEvent E m evnt).1.setMouseMode mode, (wheelEvent E m evnt).2) ∧
    (wheelEvent E (m.enableMouseWheelEvents false) evnt).1.currentZoom = m.currentZoom ∧
    (wheelEvent E (m.enableMouseWheelEvents false) evnt).1.currentCoordinate
      = m.currentCoordinate ∧
    (wheelEvent E (m.enableMouseWheelEvents false) evnt).2.accepted = false ∧
    (mousePressEvent E (m.setMouseMode MouseMode.PanningNoZoom) ⟨2, shift, pos⟩).currentZoom
      = m.currentZoom ∧
    (mousePressEvent E (m.setMouseMode MouseMode.PanningNoZoom) ⟨4, shift, pos⟩).currentZoom
      = m.currentZoom ∧
    (mousePressEvent E (m.setMouseMode MouseMode.DraggingNoZoom) ⟨2, shift, pos⟩).currentZoom
      = m.currentZoom ∧
    (mousePressEvent E (m.setMouseMode MouseMode.DraggingNoZoom) ⟨4, shift, pos⟩).currentZoom
      = m.currentZoom := by
  have hclick : ∀ (x : MapControl G) (p : QPoint),
      clickToWorldCoordinate E (x.setMouseMode mode) p = clickToWorldCoordinate E x p :=
    fun _ _ => rfl
  have hsetView : ∀ (x : MapControl G) (c : G),
      (x.setMouseMode mode).setView c = (x.setView c).setMouseMode mode := fun _ _ => rfl
  have hzoomIn : ∀ x : MapControl G, (x.setMouseMode mode).zoomIn = x.zoomIn.setMouseMode mode :=
    fun _ => rfl
  have hzoomOut : ∀ x : MapControl G,
      (x.setMouseMode mode).zoomOut = x.zoomOut.setMouseMode mode := fun _ => rfl
  refine ⟨?_, ?_, ?_, ?_, ?_, ?_, ?_, ?_⟩
  · unfold wheelEvent
    simp only [suspendUpdate_setMouseMode, hclick, hsetView, hzoomIn, hzoomOut]
    have h1 : (m.setMouseMode mode).mouse_wheel_events = m.mouse_wheel_events := rfl
    have h2 : (m.setMouseMode mode).currentZoom = m.currentZoom := rfl
    have h3 : (m.setMouseMode mode).layermanager = m.layermanager := rfl
    rw [h1, h2, h3]
    split_ifs <;> rfl
  · simp [wheelEvent, enableMouseWheelEvents, MapControl.currentZoom]
  · simp [wheelEvent, enableMouseWheelEvents, MapControl.currentCoordinate]
  · simp [wheelEvent, enableMouseWheelEvents]
  · simp [mousePressEvent, setMouseMode, emit, MapControl.currentZoom]
  · simp [mousePressEvent, setMouseMode, emit, MapControl.currentZoom]
  · simp [mousePressEvent, setMouseMode, emit, MapControl.currentZoom]
  · simp [mousePressEvent, setMouseMode, emit, MapControl.currentZoom]

/-- C10 (the code at the failing input): a vertical wheel event with positive delta
that arrives with its accept flag set, at currentZoom = maxZoom = 17, comes back
with the flag still set although nothing was zoomed: widget and event are returned
as they came.  The same holds for a negative delta at currentZoom = minZoom = 0.
With wheel events disabled, or on the horizontal axis, the flag is cleared. -/
theorem wheelEvent_at_zoom_limit_stays_accepted :
    (sampleControlAt MouseMode.Panning 17).currentZoom
      = (sampleControlAt MouseMode.Panning 17).layermanager.maxZoom ∧
    wheelUp.accepted = true ∧
    wheelEvent sampleEnv (sampleControlAt MouseMode.Panning 17) wheelUp
      = (sampleControlAt MouseMode.Panning 17, wheelUp) ∧
    (wheelEvent sampleEnv (sampleControlAt MouseMode.Panning 17) wheelUp).2.accepted = true ∧
    (sampleControlAt MouseMode.Panning 0).currentZoom
      = (sampleControlAt MouseMode.Panning 0).layermanager.minZoom ∧
    wheelEvent sampleEnv (sampleControlAt MouseMode.Panning 0) wheelDown
      = (sampleControlAt MouseMode.Panning 0, wheelDown) ∧
    (wheelEvent sampleEnv ((sampleControlAt MouseMode.Panning 17).enableMouseWheelEvents false)
      wheelUp).2.accepted = false ∧
    (wheelEvent sampleEnv (sampleControlAt MouseMode.Panning 17)
      { wheelUp with vertical := false }).2.accepted = false := by
  decide

end Wheel

/-! ## The selection box of the dragging modes -/

section Dragging

open MapControl

variable {G : Type}

/-- A move while the button is down in a dragging mode only records the pixel. -/
theorem mouseMoveEvent_dragging (E : Env G) (m : MapControl G) (evnt : QMouseEvent)
    (hp : m.mousepressed = true)
    (hmode : m.mymousemode = MouseMode.Dragging ∨ m.mymousemode = MouseMode.DraggingNoZoom) :
    mouseMoveEvent E m evnt = { m with current_mouse_pos := evnt.pos } := by
  have hno : ¬ (m.mymousemode = MouseMode.Panning ∨ m.mymousemode = MouseMode.PanningNoZoom) := by
    rcases hmode with h | h <;> simp [h]
  simp [mouseMoveEvent, hp, hno, hmode]

/-- Moves while the button is down in a dragging mode change nothing but the
recorded pixel. -/
theorem mouseMoves_dragging (E : Env G) (moves : List QMouseEvent) (m : MapControl G)
    (hp : m.mousepressed = true)
    (hmode : m.mymousemode = MouseMode.Dragging ∨ m.mymousemode = MouseMode.DraggingNoZoom) :
    ∃ q, mouseMoves E m moves = { m with current_mouse_pos := q } := by
  induction moves generalizing m with
  | nil => exact ⟨m.current_mouse_pos, rfl⟩
  | cons e es ih =>
    obtain ⟨q, hq⟩ := ih { m with current_mouse_pos := e.pos } hp hmode
    refine ⟨q, ?_⟩
    simp only [mouseMoves, List.foldl_cons] at hq ⊢
    rw [mouseMoveEvent_dragging E m e hp hmode, hq]

/-- After a non-empty run of moves while the button is down in a dragging mode the
recorded pixel is that of the last move. -/
theorem mouseMoves_dragging_last (E : Env G) (moves : List QMouseEvent) (last : QMouseEvent)
    (m : MapControl G) (hp : m.mousepressed = true)
    (hmode : m.mymousemode = MouseMode.Dragging ∨ m.mymousemode = MouseMode.DraggingNoZoom) :
    mouseMoves E m (moves ++ [last]) = { m with current_mouse_pos := last.pos } := by
  obtain ⟨q, hq⟩ := mouseMoves_dragging E moves m hp hmode
  have h : mouseMoves E m (moves ++ [last]) = mouseMoveEvent E (mouseMoves E m moves) last := by
    simp [mouseMoves, List.foldl_append]
  rw [h, hq]
  exact mouseMoveEvent_dragging E _ last hp hmode

/-- A press of the primary button without Shift, with at least one layer, records
the press pixel and emits the coordinate-tagged mouse event. -/
theorem mousePressEvent_primary [AddCommGroup G] (E : Env G) (m : MapControl G)
    (evnt : QMouseEvent) (hb : evnt.button = 1) (hs : evnt.shift = false)
    (hn : 0 < m.layermanager.nLayers) :
    mousePressEvent E m evnt =
      ({ m with mousepressed := true, pre_click_px := evnt.pos }).emit
        (Signal.mouseEventCoordinate evnt.pos (clickToWorldCoordinate E m evnt.pos)) := by
  simp [mousePressEvent, hb, hs, hn, clickToWorldCoordinate]

/-- C6 (as stated, refuted): on the sample widget in Dragging mode a press at
(10, 10), a move to (20, 20) and a release at (60, 40) emit one boxDragged whose
corner opposite to the top-left one is the coordinate of the move pixel (20, 20)
and not that of the release pixel (60, 40); with no move at all it is the coordinate
of the pixel (0, 0) the widget was constructed with; and after a press with Shift
held the top-left corner is not the coordinate of the press pixel. -/
theorem boxDragged_ignores_release_pixel :
    boxesDragged (dragCycle sampleEnv (sampleControl MouseMode.Dragging)
        ⟨1, false, ⟨10, 10⟩⟩ [⟨0, false, ⟨20, 20⟩⟩] ⟨1, false, ⟨60, 40⟩⟩).emitted
      = [((-5120, -5120), (1280, 1280))] ∧
    clickToWorldCoordinate sampleEnv (sampleControl MouseMode.Dragging) ⟨10, 10⟩
      = (-5120, -5120) ∧
    clickToWorldCoordinate sampleEnv (sampleControl MouseMode.Dragging) ⟨20, 20⟩
      = (-5120, -5120) + (1280, 1280) ∧
    clickToWorldCoordinate sampleEnv (sampleControl MouseMode.Dragging) ⟨60, 40⟩
      ≠ (-5120, -5120) + (1280, 1280) ∧
    boxesDragged (dragCycle sampleEnv (sampleControl MouseMode.Dragging)
        ⟨1, false, ⟨10, 10⟩⟩ [] ⟨1, false, ⟨60, 40⟩⟩).emitted
      = [((-5120, -5120), clickToWorldCoordinate sampleEnv (sampleControl MouseMode.Dragging)
            ⟨0, 0⟩ - (-5120, -5120))] ∧
    boxesDragged (dragCycle sampleEnv (sampleControl MouseMode.Dragging)
        ⟨1, true, ⟨10, 10⟩⟩ [⟨0, false, ⟨20, 20⟩⟩] ⟨1, false, ⟨60, 40⟩⟩).emitted
      = [((-6400, -6400), (2560, 2560))] := by
  decide

/-- C6 (amended): in Dragging or DraggingNoZoom mode with a map layer configured, a
primary-button press at A without Shift, a non-empty sequence of moves ending at
the pixel M, and a release at any pixel emit exactly one boxDragged; its top-left
corner is clickToWorldCoordinate(A), its size is clickToWorldCoordinate(M) minus
that corner, so the opposite corner is clickToWorldCoordinate(M), the coordinate
of the last move pixel.  The view is the same before and after the cycle. -/
theorem drag_cycle_emits_one_box [AddCommGroup G] (E : Env G) (m : MapControl G)
    (press : QMouseEvent) (moves : List QMouseEvent) (last release : QMouseEvent)
    (hmode : m.mymousemode = MouseMode.Dragging ∨ m.mymousemode = MouseMode.DraggingNoZoom)
    (hb : press.button = 1) (hs : press.shift = false)
    (hl : m.layermanager.layerConfigured = true) :
    boxesDragged (dragCycle E m press (moves ++ [last]) release).emitted
      = boxesDragged m.emitted ++
          [(clickToWorldCoordinate E m press.pos,
            clickToWorldCoordinate E m last.pos - clickToWorldCoordinate E m press.pos)] ∧
    clickToWorldCoordinate E m press.pos
        + (clickToWorldCoordinate E m last.pos - clickToWorldCoordinate E m press.pos)
      = clickToWorldCoordinate E m last.pos ∧
    (dragCycle E m press (moves ++ [last]) release).layermanager = m.layermanager := by
  have hn : 0 < m.layermanager.nLayers := by
    simp only [LayerManager.layerConfigured, Bool.and_eq_true, decide_eq_true_eq] at hl
    exact hl.1
  have hcycle : dragCycle E m press (moves ++ [last]) release =
      mouseReleaseEvent E
        ({ ({ m with mousepressed := true, pre_click_px := press.pos }).emit
            (Signal.mouseEventCoordinate press.pos (clickToWorldCoordinate E m press.pos)) with
          current_mouse_pos := last.pos }) release := by
    have hmoves := mouseMoves_dragging_last E moves last
      (({ m with mousepressed := true, pre_click_px := press.pos }).emit
        (Signal.mouseEventCoordinate press.pos (clickToWorldCoordinate E m press.pos))) rfl hmode
    unfold dragCycle
    rw [mousePressEvent_primary E m press hb hs hn, hmoves]
  refine ⟨?_, add_sub_cancel _ _, ?_⟩
  · rw [hcycle]
    simp [mouseReleaseEvent, hmode, emit, boxesDragged, clickToWorldCoordinate,
      List.filterMap_append]
  · rw [hcycle]
    simp [mouseReleaseEvent, hmode, emit]

/-- Witness of the amended C6: the sample widget in Dragging mode, a press at
(10, 10), moves to (15, 12) and (20, 20), a release at (60, 40). -/
theorem drag_cycle_emits_one_box_witness :
    ((sampleControl MouseMode.Dragging).mymousemode = MouseMode.Dragging ∧
      (sampleControl MouseMode.Dragging).layermanager.layerConfigured = true) ∧
    boxesDragged (dragCycle sampleEnv (sampleControl MouseMode.Dragging) ⟨1, false, ⟨10, 10⟩⟩
        ([⟨0, false, ⟨15, 12⟩⟩] ++ [⟨0, false, ⟨20, 20⟩⟩]) ⟨1, false, ⟨60, 40⟩⟩).emitted
      = boxesDragged (sampleControl MouseMode.Dragging).emitted ++
          [(clickToWorldCoordinate sampleEnv (sampleControl MouseMode.Dragging) ⟨10, 10⟩,
            clickToWorldCoordinate sampleEnv (sampleControl MouseMode.Dragging) ⟨20, 20⟩
              - clickToWorldCoordinate sampleEnv (sampleControl MouseMode.Dragging) ⟨10, 10⟩)] :=
  ⟨by decide,
    (drag_cycle_emits_one_box sampleEnv (sampleControl MouseMode.Dragging) ⟨1, false, ⟨10, 10⟩⟩
      [⟨0, false, ⟨15, 12⟩⟩] ⟨0, false, ⟨20, 20⟩⟩ ⟨1, false, ⟨60, 40⟩⟩
      (Or.inl (by decide)) (by decide) (by decide) (by decide)).1⟩

end Dragging

end qmapcontrol
